import Mathlib

/-!
A shallow embedding of the DataHub CLI helper module
`metadata-ingestion/src/datahub/cli/cli_utils.py`, together with theorems
about its configuration-resolution precedence, search-filter construction,
search-response iteration, urn handling, rollback-row filtering and
best-effort aspect merging.

Python optional strings are modelled as `Option String`; `None`/`""`
truthiness, f-string rendering of `None`, and `a or b` are modelled
explicitly.  HTTP traffic is modelled by passing the parsed response
of each request as an argument of the function that consumes it.
-/

namespace DatahubCli

/-- Python truthiness of an optional string: `None` and `""` are falsy. -/
def pyTruthy : Option String → Bool
  | none => false
  | some s => s != ""

/-- Python `a or b` on optional strings (`None` and `""` are falsy). -/
def pyOrElse (a b : Option String) : Option String :=
  if pyTruthy a then a else b

/-- Rendering of an optional string inside a Python f-string:
`None` prints as the literal string "None". -/
def fstr : Option String → String
  | none => "None"
  | some s => s

/-- Python `s.lower()`, modelled character-by-character on the character
list (faithful on the ASCII names this module compares against). -/
def pyLower (s : String) : String :=
  ⟨s.data.map Char.toLower⟩

/-- Python `s.strip()`: drop leading and trailing whitespace. -/
def pyStrip (s : String) : String :=
  ⟨((s.data.dropWhile Char.isWhitespace).reverse.dropWhile Char.isWhitespace).reverse⟩

/-- The process environment variables read by the module: `DATAHUB_GMS_HOST`,
`DATAHUB_GMS_PORT`, `DATAHUB_GMS_TOKEN`, `DATAHUB_GMS_PROTOCOL`,
`DATAHUB_GMS_URL` and `DATAHUB_SKIP_CONFIG`. -/
structure Env where
  host : Option String
  port : Option String
  token : Option String
  protocol : Option String
  url : Option String
  skipConfig : Option String
  deriving DecidableEq

/-- Embeds `get_boolean_env_variable`: `None` gives the default, otherwise
the value is truthy exactly when it lower-cases to "true" or "1". -/
def get_boolean_env_variable (value : Option String) (default : Bool) : Bool :=
  match value with
  | none => default
  | some v => pyLower v == "true" || pyLower v == "1"

/-- Embeds `get_details_from_env`: when the port variable is set the url is
synthesized as `protocol://host:port` (with the unset host rendering as
"None" inside the f-string); otherwise `url or host` is returned. -/
def get_details_from_env (e : Env) : Option String × Option String :=
  let protocol := e.protocol.getD "http"
  match e.port with
  | some port => (some (protocol ++ "://" ++ fstr e.host ++ ":" ++ port), e.token)
  | none => (pyOrElse e.url e.host, e.token)

/-- Embeds `first_non_null`: the first element that is neither `None` nor
blank after stripping whitespace. -/
def first_non_null : List (Option String) → Option String
  | [] => none
  | el :: rest =>
    match el with
    | some s => if pyStrip s == "" then first_non_null rest else some s
    | none => first_non_null rest

/-- An optional string that `first_non_null` skips: `None` or all-whitespace. -/
def isBlankOpt : Option String → Bool
  | none => true
  | some s => pyStrip s == ""

/-- The module-level `config_override` dict.  Only the host-url and token
keys are ever written to it (by `set_env_variables_override_config`). -/
structure Override where
  url : Option String
  token : Option String
  deriving DecidableEq

/-- The override dict is empty when it holds no key at all. -/
def Override.isEmpty (o : Override) : Bool :=
  o.url.isNone && o.token.isNone

/-- The parsed persisted config file (`~/.datahubenv`): the `gms.server`
field is required, `gms.token` is optional. -/
structure GmsConfig where
  server : String
  token : Option String
  deriving DecidableEq

/-- Everything `get_url_and_token` reads: the environment, the in-process
override map and the (ensured, successfully parsed) config file. -/
structure ConfigState where
  env : Env
  override : Override
  file : GmsConfig
  deriving DecidableEq

/-- Embeds `should_skip_config`. -/
def should_skip_config (e : Env) : Bool :=
  get_boolean_env_variable e.skipConfig false

/-- Embeds `get_details_from_config` on a successfully parsed file. -/
def get_details_from_config (c : GmsConfig) : Option String × Option String :=
  (some c.server, c.token)

/-- Embeds `get_url_and_token`: a non-empty override wins outright; else a
truthy skip flag selects the environment; else environment and file are
merged field-by-field through `first_non_null`. -/
def get_url_and_token (c : ConfigState) : Option String × Option String :=
  let envDetails := get_details_from_env c.env
  if !c.override.isEmpty then
    (c.override.url, c.override.token)
  else if should_skip_config c.env then
    (envDetails.1, envDetails.2)
  else
    let confDetails := get_details_from_config c.file
    (first_non_null [envDetails.1, confDetails.1],
     first_non_null [envDetails.2, confDetails.2])

/-- An HTTP session, reduced to its default headers. -/
structure Session where
  headers : List (String × String)
  deriving DecidableEq

/-- Embeds `get_session_and_host`.  `fmtToken` stands for the Python
`token.format(**os.environ)` environment-variable interpolation.  The
`(none, none)` pair is the "not configured" sentinel returned when no
non-blank host resolves. -/
def get_session_and_host (fmtToken : String → String) (c : ConfigState) :
    Option Session × Option String :=
  let r := get_url_and_token c
  match r.1 with
  | none => (none, none)
  | some gmsHost =>
    if pyStrip gmsHost == "" then (none, none)
    else
      let base : List (String × String) :=
        [("X-RestLi-Protocol-Version", "2.0.0"),
         ("Content-Type", "application/json")]
      let headers :=
        match r.2 with
        | some t =>
          if t.length > 0 then base ++ [("Authorization", "Bearer " ++ fmtToken t)]
          else base
        | none => base
      (some ⟨headers⟩, some gmsHost)

/-- A search filter criterion, as built by `get_urns_by_filter`. -/
structure Criterion where
  field : String
  value : String
  condition : String
  deriving DecidableEq

/-- Embeds the `filter_criteria` construction of `get_urns_by_filter`
(source lines 376-418).  The second `if` reproduces the Python condition
`platform is not None and entity_type_lower == "dataset" or
entity_type_lower == "dataflow" or ... or ... == "container"` with
Python's precedence, where `and` binds tighter than `or`: the platform
check only guards the `dataset` disjunct. -/
def get_urns_by_filter_criteria (platform : Option String) (env : Option String)
    (entity_type : String) (include_removed : Bool)
    (only_soft_deleted : Option Bool) : List Criterion :=
  let entity_type_lower := pyLower entity_type
  let fc0 : List Criterion := []
  let fc1 :=
    if pyTruthy env && entity_type_lower != "container" then
      fc0 ++ [⟨"origin", fstr env, "EQUAL"⟩]
    else fc0
  let fc2 :=
    if (platform.isSome && entity_type_lower == "dataset")
        || entity_type_lower == "dataflow"
        || entity_type_lower == "datajob"
        || entity_type_lower == "container" then
      fc1 ++ [⟨"platform", "urn:li:dataPlatform:" ++ fstr platform, "EQUAL"⟩]
    else fc1
  let fc3 :=
    if platform.isSome && (entity_type_lower == "chart"
        || entity_type_lower == "dashboard") then
      fc2 ++ [⟨"tool", fstr platform, "EQUAL"⟩]
    else fc2
  let fc4 :=
    if only_soft_deleted == some true then
      fc3 ++ [⟨"removed", "true", "EQUAL"⟩]
    else if include_removed then
      fc3 ++ [⟨"removed", "", "EQUAL"⟩]
    else fc3
  fc4

/-- The parsed body of a 200 search response: the server-reported
`value.numEntities` and the `value.entities` list (each item reduced to
its `entity` urn). -/
structure SearchResponse where
  numEntities : Int
  entities : List String
  deriving DecidableEq

/-- How a generator run ends: normal completion, completion with a logged
warning, or an `AssertionError` raised after the last yield. -/
inductive IterOutcome
  | normal
  | warned
  | assertFailed
  deriving DecidableEq

/-- The yield loop shared by the search iterators: walks the list keeping
the `entities_yielded` counter and the sequence of yielded items. -/
def yield_loop (entities : List String) : Nat × List String :=
  entities.foldl (fun acc x => (acc.1 + 1, acc.2 ++ [x])) (0, [])

/-- Embeds the 200-response branch of `get_urns_by_filter` (lines 430-442):
yield every listed entity, then log a warning when the counter differs
from `numEntities`. -/
def get_urns_by_filter_iterate (r : SearchResponse) : List String × IterOutcome :=
  let num_entities := r.numEntities
  let res := yield_loop r.entities
  (res.2, if (res.1 : Int) != num_entities then .warned else .normal)

/-- Embeds the 200-response branch of `get_container_ids_by_filter`
(lines 487-499): yield every listed entity, then `assert` that the counter
equals `numEntities`. -/
def get_container_ids_by_filter_iterate (r : SearchResponse) :
    List String × IterOutcome :=
  let num_entities := r.numEntities
  let res := yield_loop r.entities
  (res.2, if (res.1 : Int) == num_entities then .normal else .assertFailed)

/-- Embeds the 200-response branch of `batch_get_ids` (lines 516-528): the
response's `results` dict (an association list; entity records are kept
opaque as strings), with `num_entities = len(results)` and the values
yielded in order, then the same `assert` as the container search. -/
def batch_get_ids_iterate (results : List (String × String)) :
    List String × IterOutcome :=
  let num_entities := results.length
  let res := yield_loop (results.map Prod.snd)
  (res.2, if res.1 == num_entities then .normal else .assertFailed)

/-- Python `s.startswith(p)`, modelled on the character lists. -/
def py_startswith (s p : String) : Bool :=
  s.data.take p.data.length == p.data

/-- Embeds the urn handling and endpoint construction of `get_entity`
(lines 569-581).  `url_encode` stands for `Urn.url_encode`; the `Except`
error is the exception raised for an input with neither prefix, before
any request is issued. -/
def get_entity_endpoint (url_encode : String → String) (urn : String)
    (aspect : List String) : Except String String :=
  let mk := fun (encoded_urn : String) =>
    let endpoint := "/entitiesV2/" ++ encoded_urn
    if aspect.length > 0 then
      endpoint ++ "?aspects=List(" ++ String.intercalate "," aspect ++ ")"
    else endpoint
  if py_startswith urn "urn%3A" then .ok (mk urn)
  else if py_startswith urn "urn:" then .ok (mk (url_encode urn))
  else .error ("urn " ++ urn ++
    " does not seem to be a valid raw (starts with urn:) or encoded urn (starts with urn%3A)")

/-- One row of `aspectRowSummaries` in a rollback response. -/
structure RollbackRow where
  runId : String
  urn : String
  aspectName : String
  timestamp : Int
  deriving DecidableEq

/-- Embeds `format_aspect_summaries`; `fmtTime` stands for the local-time
string rendering of the row's timestamp. -/
def format_aspect_summaries (fmtTime : Int → String)
    (summaries : List RollbackRow) : List (List String) :=
  summaries.map (fun row => [row.urn, row.aspectName, fmtTime row.timestamp])

/-- The parsed `value` envelope of a rollback response, reduced to the
fields the row-filtering logic reads. -/
structure RollbackSummary where
  aspectRowSummaries : List RollbackRow
  deriving DecidableEq

/-- Embeds the row handling of `post_rollback_endpoint` (lines 296-310):
keep exactly the rows whose `runId` equals the requested one, warn
(non-fatally) when the server returned zero rows, and format the kept
rows. -/
def post_rollback_endpoint_rows (fmtTime : Int → String) (runId : String)
    (summary : RollbackSummary) : List (List String) × Bool :=
  let rows := summary.aspectRowSummaries
  let rolled_back_aspects := rows.filter (fun row => row.runId == runId)
  let warned := rows.length == 0
  (format_aspect_summaries fmtTime rolled_back_aspects, warned)

/-- A raw aspect record, reduced to its `value` payload (kept opaque as a
string). -/
structure RawAspect where
  value : String
  deriving DecidableEq

/-- A non-empty `getTimeseriesAspectValues` response: the
`value.values` list, each item reduced to its `aspect` record. -/
structure TimeseriesResponse where
  values : List RawAspect
  deriving DecidableEq

/-- Embeds `get_latest_timeseries_aspect_values` (lines 633-652): the
request either succeeds with a parsed response or raises; any exception is
swallowed and the empty dict (here `none`) is returned. -/
def get_latest_timeseries_aspect_values
    (tsFetch : String → Except Unit TimeseriesResponse)
    (aspectName : String) : Option TimeseriesResponse :=
  match tsFetch aspectName with
  | .ok r => some r
  | .error _ => none

/-- Python dict assignment `d[k] = v` on an association list: overwrite in
place when the key exists, else append. -/
def dictInsert {α : Type} (d : List (String × α)) (k : String) (v : α) :
    List (String × α) :=
  if d.any (fun p => p.1 == k) then
    d.map (fun p => if p.1 == k then (k, v) else p)
  else d ++ [(k, v)]

/-- Embeds `get_aspects_for_entity` (lines 655-706).  The external pieces
are passed in: `tsMap` and `aspMap` are membership in
`TIMESERIES_ASPECT_MAP` and `ASPECT_MAP`; `jsonLoads` is the
`json.loads` decoding of a timeseries value; `postJsonTransform` and
`fromObj` are the typed-decoding pipeline (with `none` standing for a
conversion exception, which is logged and the aspect dropped);
`entityFetch` returns the `aspects` dict of the `get_entity` response for
the requested non-timeseries aspect names; `tsFetch` is the timeseries
request, `Except.error` standing for a raised exception. -/
def get_aspects_for_entity
    (tsMap aspMap : String → Bool)
    (jsonLoads postJsonTransform : String → String)
    (fromObj : String → String → Option String)
    (entityFetch : List String → List (String × RawAspect))
    (tsFetch : String → Except Unit TimeseriesResponse)
    (aspects : List String) (typed : Bool) : List (String × String) :=
  let non_timeseries_aspects := aspects.filter (fun a => !tsMap a)
  let aspect_list0 := entityFetch non_timeseries_aspects
  let timeseries_aspects := aspects.filter (fun a => tsMap a)
  let aspect_list := timeseries_aspects.foldl (fun al timeseries_aspect =>
    let timeseries_response :=
      get_latest_timeseries_aspect_values tsFetch timeseries_aspect
    let values := match timeseries_response with
      | some r => r.values
      | none => []
    match values with
    | [] => al
    | v :: _ =>
      if aspMap timeseries_aspect then
        dictInsert al timeseries_aspect ⟨jsonLoads v.value⟩
      else al) aspect_list0
  let aspect_map := aspect_list.foldl (fun am p =>
    let aspect_dict := p.2.value
    if !typed then dictInsert am p.1 aspect_dict
    else if aspMap p.1 then
      match fromObj p.1 (postJsonTransform aspect_dict) with
      | some obj => dictInsert am p.1 obj
      | none => am
    else am) ([] : List (String × String))
  if aspects.length > 0 then aspect_map.filter (fun p => aspects.contains p.1)
  else aspect_map

theorem yield_loop_go (l : List String) (n : Nat) (acc : List String) :
    l.foldl (fun acc x => (acc.1 + 1, acc.2 ++ [x])) (n, acc) =
      (n + l.length, acc ++ l) := by
  induction l generalizing n acc with
  | nil => simp
  | cons x xs ih =>
    simp only [List.foldl_cons, ih, List.length_cons, List.append_assoc,
      List.singleton_append]
    refine Prod.ext ?_ rfl
    simp
    omega

theorem yield_loop_eq (l : List String) : yield_loop l = (l.length, l) := by
  simpa using yield_loop_go l 0 []

/-- C10: in `batch_get_ids`, the strict consistency assertion is vacuously
valid: the server-reported total is the size of the very `results` mapping
whose values are yielded, so every 200 response yields exactly that many
items and the assertion can never fail. -/
theorem batch_get_ids_assert_never_fails (results : List (String × String)) :
    batch_get_ids_iterate results = (results.map Prod.snd, IterOutcome.normal) := by
  simp [batch_get_ids_iterate, yield_loop_eq]

/-- C2: on a search response whose reported `numEntities` differs from the
number of listed entities, `get_urns_by_filter` yields all listed items and
ends with a logged warning, while `get_container_ids_by_filter` yields all
listed items and then fails its assertion. -/
theorem search_consistency_check_asymmetry (r : SearchResponse)
    (h : (r.entities.length : Int) ≠ r.numEntities) :
    get_urns_by_filter_iterate r = (r.entities, IterOutcome.warned) ∧
    get_container_ids_by_filter_iterate r = (r.entities, IterOutcome.assertFailed) := by
  constructor
  · simp [get_urns_by_filter_iterate, yield_loop_eq, h]
  · simp [get_container_ids_by_filter_iterate, yield_loop_eq, h]

theorem search_consistency_check_asymmetry_witness :
    get_urns_by_filter_iterate ⟨5, ["u1", "u2", "u3"]⟩ =
      (["u1", "u2", "u3"], IterOutcome.warned) ∧
    get_container_ids_by_filter_iterate ⟨5, ["u1", "u2", "u3"]⟩ =
      (["u1", "u2", "u3"], IterOutcome.assertFailed) :=
  search_consistency_check_asymmetry ⟨5, ["u1", "u2", "u3"]⟩ (by decide)

/-- C3 (recording the code bug): because Python's `and` binds tighter than
`or` in the condition at lines 380-386, a platform criterion is added for
the `dataflow` entity type even when no platform value is supplied, with
`None` interpolated into the dataPlatform urn.  The claim (and the spec)
say no platform criterion is added when platform is absent. -/
theorem platform_criterion_added_without_platform :
    get_urns_by_filter_criteria none none "dataflow" false none =
      [⟨"platform", "urn:li:dataPlatform:None", "EQUAL"⟩] := by decide

/-- C4: when the port environment variable is set, the resolved host url is
exactly `protocol://host:port` (protocol defaulting to "http"), and the
full-url variable is ignored; when the port is unset, resolution falls back
to the full-url variable and then to the legacy host variable. -/
theorem env_host_resolution (e : Env) :
    (∀ p, e.port = some p →
      (get_details_from_env e).1 =
        some (e.protocol.getD "http" ++ "://" ++ fstr e.host ++ ":" ++ p) ∧
      (∀ u, get_details_from_env ⟨e.host, e.port, e.token, e.protocol, u, e.skipConfig⟩ =
        get_details_from_env e)) ∧
    (e.port = none →
      (get_details_from_env e).1 = pyOrElse e.url e.host ∧
      (∀ u, e.url = some u → u ≠ "" → (get_details_from_env e).1 = some u) ∧
      (e.url = none → (get_details_from_env e).1 = e.host)) := by
  constructor
  · intro p hp
    constructor
    · simp [get_details_from_env, hp]
    · intro u
      simp [get_details_from_env, hp]
  · intro hp
    refine ⟨by simp [get_details_from_env, hp], ?_, ?_⟩
    · intro u hu hne
      simp [get_details_from_env, hp, pyOrElse, pyTruthy, hu, hne]
    · intro hu
      simp [get_details_from_env, hp, pyOrElse, pyTruthy, hu]

theorem env_host_resolution_witness :
    (get_details_from_env ⟨some "h", some "9002", none, some "https",
        some "http://ignored", none⟩).1 = some "https://h:9002" ∧
    (get_details_from_env ⟨some "legacy", none, none, none,
        some "http://u", none⟩).1 = some "http://u" := by
  constructor
  · exact ((env_host_resolution _).1 "9002" rfl).1
  · exact ((env_host_resolution _).2 rfl).2.1 "http://u" rfl (by decide)

/-- C1: config resolution precedence.  A non-empty override map alone
determines host and token (no merging, so an override without a token
yields no token whatever the environment holds); with an empty override, a
skip flag lower-casing to "true" or "1" selects the environment values
whatever the file holds; otherwise host and token are independently the
first non-blank value among environment then file.  The last conjunct
characterizes `first_non_null` on a two-element list. -/
theorem get_url_and_token_precedence (c : ConfigState) :
    (c.override.isEmpty = false →
      get_url_and_token c = (c.override.url, c.override.token)) ∧
    (c.override.isEmpty = true → ∀ v, c.env.skipConfig = some v →
      (pyLower v = "true" ∨ pyLower v = "1") →
      get_url_and_token c = get_details_from_env c.env) ∧
    (c.override.isEmpty = true → should_skip_config c.env = false →
      get_url_and_token c =
        (first_non_null [(get_details_from_env c.env).1, some c.file.server],
         first_non_null [(get_details_from_env c.env).2, c.file.token])) ∧
    (∀ a b, first_non_null [a, b] =
      if isBlankOpt a then (if isBlankOpt b then none else b) else a) := by
  refine ⟨?_, ?_, ?_, ?_⟩
  · intro h
    simp [get_url_and_token, h]
  · intro h v hv htruthy
    have hskip : should_skip_config c.env = true := by
      simp [should_skip_config, get_boolean_env_variable, hv]
      rcases htruthy with h1 | h1 <;> simp [h1]
    simp [get_url_and_token, h, hskip]
  · intro h hskip
    simp [get_url_and_token, h, hskip, get_details_from_config]
  · intro a b
    rcases a with _ | s <;> rcases b with _ | t <;>
        simp only [first_non_null, isBlankOpt] <;>
      repeat' split <;> simp_all [first_non_null]

theorem get_url_and_token_precedence_witness :
    get_url_and_token ⟨⟨none, none, some "envtok", none, some "http://env", none⟩,
        ⟨some "http://override", none⟩, ⟨"http://file", some "filetok"⟩⟩ =
      (some "http://override", none) ∧
    get_url_and_token ⟨⟨none, none, some "envtok", none, some "http://env", some "TRUE"⟩,
        ⟨none, none⟩, ⟨"http://file", some "filetok"⟩⟩ =
      (some "http://env", some "envtok") ∧
    get_url_and_token ⟨⟨none, none, some "  ", none, some "http://env", none⟩,
        ⟨none, none⟩, ⟨"http://file", some "filetok"⟩⟩ =
      (some "http://env", some "filetok") := by
  refine ⟨?_, ?_, ?_⟩
  · exact (get_url_and_token_precedence
      ⟨⟨none, none, some "envtok", none, some "http://env", none⟩,
       ⟨some "http://override", none⟩, ⟨"http://file", some "filetok"⟩⟩).1 (by decide)
  · exact ((get_url_and_token_precedence
      ⟨⟨none, none, some "envtok", none, some "http://env", some "TRUE"⟩,
       ⟨none, none⟩, ⟨"http://file", some "filetok"⟩⟩).2.1 (by decide) "TRUE" rfl
      (Or.inl (by decide))).trans (by decide)
  · exact ((get_url_and_token_precedence
      ⟨⟨none, none, some "  ", none, some "http://env", none⟩,
       ⟨none, none⟩, ⟨"http://file", some "filetok"⟩⟩).2.2.1 (by decide)
      (by decide)).trans (by decide)

/-- C7: `post_rollback_endpoint` formats exactly the response rows whose
`runId` equals the requested one, in their original order; rows with other
run identifiers never affect the output; and the non-fatal warning is
emitted exactly when the server returned zero rows. -/
theorem rollback_row_filtering (fmtTime : Int → String) (runId : String)
    (summary : RollbackSummary) :
    (post_rollback_endpoint_rows fmtTime runId summary).1 =
      format_aspect_summaries fmtTime
        (summary.aspectRowSummaries.filter (fun row => row.runId == runId)) ∧
    ((post_rollback_endpoint_rows fmtTime runId summary).2 = true ↔
      summary.aspectRowSummaries = []) ∧
    (∀ extra : List RollbackRow, (∀ row ∈ extra, row.runId ≠ runId) →
      (post_rollback_endpoint_rows fmtTime runId
          ⟨summary.aspectRowSummaries ++ extra⟩).1 =
        (post_rollback_endpoint_rows fmtTime runId summary).1) := by
  refine ⟨rfl, ?_, ?_⟩
  · simp [post_rollback_endpoint_rows]
  · intro extra hextra
    have hnil : extra.filter (fun row => row.runId == runId) = [] := by
      simp only [List.filter_eq_nil_iff]
      intro row hrow
      simpa using hextra row hrow
    simp [post_rollback_endpoint_rows, List.filter_append, hnil]

theorem rollback_row_filtering_witness :
    (post_rollback_endpoint_rows (fun _ => "t") "r1"
        ⟨[⟨"r1", "u1", "a1", 0⟩]⟩).1 = [["u1", "a1", "t"]] ∧
    (post_rollback_endpoint_rows (fun _ => "t") "r1"
        ⟨[⟨"r1", "u1", "a1", 0⟩] ++ [⟨"r2", "u2", "a2", 1⟩]⟩).1 =
      [["u1", "a1", "t"]] := by
  constructor
  · exact (rollback_row_filtering (fun _ => "t") "r1"
      ⟨[⟨"r1", "u1", "a1", 0⟩]⟩).1.trans (by decide)
  · exact ((rollback_row_filtering (fun _ => "t") "r1"
        ⟨[⟨"r1", "u1", "a1", 0⟩]⟩).2.2 [⟨"r2", "u2", "a2", 1⟩] (by decide)).trans
      ((rollback_row_filtering (fun _ => "t") "r1"
        ⟨[⟨"r1", "u1", "a1", 0⟩]⟩).1.trans (by decide))

/-- C9: the `container` entity type never receives an `origin` (environment)
criterion, whatever the env argument; every entity type not lower-casing to
"container" receives the criterion `{origin, env, EQUAL}` whenever a
non-empty env is supplied. -/
theorem ite_append_eq (c : Prop) [Decidable c] (l t : List Criterion) :
    (if c then l ++ t else l) = l ++ (if c then t else []) := by
  split <;> simp

theorem ite_ite_append_eq (c c' : Prop) [Decidable c] [Decidable c']
    (l t t' : List Criterion) :
    (if c then l ++ t else if c' then l ++ t' else l) =
      l ++ (if c then t else if c' then t' else []) := by
  split
  · simp
  · split <;> simp

theorem container_env_criterion (platform : Option String) (env : Option String)
    (include_removed : Bool) (only_soft_deleted : Option Bool) :
    (∀ cr ∈ get_urns_by_filter_criteria platform env "container"
        include_removed only_soft_deleted, cr.field ≠ "origin") ∧
    (∀ entity_type e, pyLower entity_type ≠ "container" → e ≠ "" →
      (⟨"origin", e, "EQUAL"⟩ : Criterion) ∈
        get_urns_by_filter_criteria platform (some e) entity_type
          include_removed only_soft_deleted) := by
  constructor
  · intro cr hmem
    simp only [get_urns_by_filter_criteria, ite_append_eq, ite_ite_append_eq] at hmem
    simp +decide [List.mem_append] at hmem
    split at hmem
    · simp at hmem
      rcases hmem with h | h <;> subst h
      · exact (by decide : ("platform" : String) ≠ "origin")
      · exact (by decide : ("removed" : String) ≠ "origin")
    · split at hmem
      · simp at hmem
        rcases hmem with h | h <;> subst h
        · exact (by decide : ("platform" : String) ≠ "origin")
        · exact (by decide : ("removed" : String) ≠ "origin")
      · simp at hmem
        subst hmem
        exact (by decide : ("platform" : String) ≠ "origin")
  · intro entity_type e hlow hne
    simp only [get_urns_by_filter_criteria, ite_append_eq, ite_ite_append_eq]
    have h1 : (pyTruthy (some e) && (pyLower entity_type != "container")) = true := by
      simp [pyTruthy, hne, hlow]
    simp [h1, fstr]
    split <;> exact List.mem_cons_self _ _

theorem container_env_criterion_witness :
    (⟨"origin", "PROD", "EQUAL"⟩ : Criterion) ∈
      get_urns_by_filter_criteria (some "snowflake") (some "PROD") "dataset"
        false none ∧
    ("platform" : String) ≠ "origin" := by
  constructor
  · exact (container_env_criterion (some "snowflake") (some "PROD") false none).2
      "dataset" "PROD" (by decide) (by decide)
  · exact (container_env_criterion none (some "PROD") false none).1
      ⟨"platform", "urn:li:dataPlatform:None", "EQUAL"⟩ (by decide)

theorem py_startswith_urn_disjoint (s : String)
    (h : py_startswith s "urn:" = true) : py_startswith s "urn%3A" = false := by
  have h4 : s.data.take 4 = ['u', 'r', 'n', ':'] := eq_of_beq h
  by_contra hc
  rw [Bool.not_eq_false] at hc
  have h6 : s.data.take 6 = ['u', 'r', 'n', '%', '3', 'A'] := eq_of_beq hc
  have hcontr : (['u', 'r', 'n', ':'] : List Char) = ['u', 'r', 'n', '%'] := by
    calc (['u', 'r', 'n', ':'] : List Char)
        = s.data.take 4 := h4.symm
      _ = (s.data.take 6).take 4 := by rw [List.take_take]; norm_num
      _ = ['u', 'r', 'n', '%'] := by rw [h6]; rfl
  exact absurd hcontr (by decide)

theorem auth_not_mem_base (v : String) :
    ("Authorization", v) ∉ [("X-RestLi-Protocol-Version", "2.0.0"),
      ("Content-Type", "application/json")] := by
  intro hv
  rcases List.mem_cons.mp hv with h1 | h1
  · exact absurd (congrArg Prod.fst h1)
      (show ("Authorization" : String) ≠ "X-RestLi-Protocol-Version" by decide)
  · rcases List.mem_cons.mp h1 with h2 | h2
    · exact absurd (congrArg Prod.fst h2)
        (show ("Authorization" : String) ≠ "Content-Type" by decide)
    · exact absurd h2 (List.not_mem_nil _)

/-- C6: an input beginning with "urn:" has `Urn.url_encode` applied before
being placed in the `/entitiesV2/` path; an input beginning with "urn%3A"
is passed through unencoded; every other input is rejected with an error
and no endpoint is produced. -/
theorem get_entity_urn_handling (url_encode : String → String) (urn : String)
    (aspect : List String) :
    (py_startswith urn "urn%3A" = true →
      get_entity_endpoint url_encode urn [] = .ok ("/entitiesV2/" ++ urn)) ∧
    (py_startswith urn "urn:" = true →
      get_entity_endpoint url_encode urn [] =
        .ok ("/entitiesV2/" ++ url_encode urn)) ∧
    (py_startswith urn "urn%3A" = false → py_startswith urn "urn:" = false →
      ∃ msg, get_entity_endpoint url_encode urn aspect = .error msg) := by
  refine ⟨?_, ?_, ?_⟩
  · intro h
    simp [get_entity_endpoint, h]
  · intro h
    have h2 := py_startswith_urn_disjoint urn h
    simp [get_entity_endpoint, h, h2]
  · intro h1 h2
    refine ⟨"urn " ++ urn ++
      " does not seem to be a valid raw (starts with urn:) or encoded urn (starts with urn%3A)", ?_⟩
    simp [get_entity_endpoint, h1, h2]

theorem get_entity_urn_handling_witness :
    get_entity_endpoint (fun s => s ++ "%enc") "urn%3Ali" [] =
      .ok ("/entitiesV2/" ++ "urn%3Ali") ∧
    get_entity_endpoint (fun s => s ++ "%enc") "urn:li:dataset:xyz" [] =
      .ok ("/entitiesV2/" ++ ("urn:li:dataset:xyz" ++ "%enc")) ∧
    (∃ msg, get_entity_endpoint (fun s => s ++ "%enc") "notAUrn" [] =
      .error msg) := by
  refine ⟨?_, ?_, ?_⟩
  · exact (get_entity_urn_handling (fun s => s ++ "%enc") "urn%3Ali" []).1
      (by decide)
  · exact (get_entity_urn_handling (fun s => s ++ "%enc") "urn:li:dataset:xyz"
      []).2.1 (by decide)
  · exact (get_entity_urn_handling (fun s => s ++ "%enc") "notAUrn" []).2.2
      (by decide) (by decide)

theorem string_length_pos_iff (t : String) : 0 < t.length ↔ t ≠ "" := by
  obtain ⟨l⟩ := t
  have hd : ("" : String) = ⟨[]⟩ := rfl
  cases l with
  | nil => simp [String.length, hd]
  | cons c cs => simp [String.length, hd, String.ext_iff]

/-- C8: when configuration resolution yields no host, or a host that is
blank after stripping, `get_session_and_host` returns the `(None, None)`
sentinel without raising; otherwise it returns a session whose headers
include the protocol-version and content-type headers, with a Bearer
authorization header exactly when the resolved token is a non-empty
string. -/
theorem session_sentinel_on_missing_host (fmtToken : String → String)
    (c : ConfigState) :
    ((get_url_and_token c).1 = none →
      get_session_and_host fmtToken c = (none, none)) ∧
    (∀ h, (get_url_and_token c).1 = some h → pyStrip h = "" →
      get_session_and_host fmtToken c = (none, none)) ∧
    (∀ h, (get_url_and_token c).1 = some h → pyStrip h ≠ "" →
      ∃ s, get_session_and_host fmtToken c = (some s, some h) ∧
        ("X-RestLi-Protocol-Version", "2.0.0") ∈ s.headers ∧
        ("Content-Type", "application/json") ∈ s.headers ∧
        (∀ t, (get_url_and_token c).2 = some t → t ≠ "" →
          ("Authorization", "Bearer " ++ fmtToken t) ∈ s.headers) ∧
        (((get_url_and_token c).2 = none ∨ (get_url_and_token c).2 = some "") →
          ∀ v, ("Authorization", v) ∉ s.headers)) := by
  refine ⟨?_, ?_, ?_⟩
  · intro h
    simp [get_session_and_host, h]
  · intro hst h hblank
    simp [get_session_and_host, h, hblank]
  · intro hst h hblank
    cases htok : (get_url_and_token c).2 with
    | none =>
      refine ⟨⟨[("X-RestLi-Protocol-Version", "2.0.0"),
        ("Content-Type", "application/json")]⟩, ?_, by simp, by simp, ?_, ?_⟩
      · simp [get_session_and_host, h, htok, hblank]
      · intro t ht
        cases ht
      · intro _ v
        exact auth_not_mem_base v
    | some t =>
      by_cases ht0 : t = ""
      · subst ht0
        refine ⟨⟨[("X-RestLi-Protocol-Version", "2.0.0"),
          ("Content-Type", "application/json")]⟩, ?_, by simp, by simp, ?_, ?_⟩
        · simp [get_session_and_host, h, htok, hblank]
        · intro t' ht'
          cases ht'
          intro hne
          exact absurd rfl hne
        · intro _ v
          exact auth_not_mem_base v
      · have hpos : 0 < t.length := (string_length_pos_iff t).mpr ht0
        refine ⟨⟨[("X-RestLi-Protocol-Version", "2.0.0"),
          ("Content-Type", "application/json"),
          ("Authorization", "Bearer " ++ fmtToken t)]⟩, ?_, by simp, by simp,
          ?_, ?_⟩
        · simp [get_session_and_host, h, htok, hblank, hpos]
        · intro t' ht'
          cases ht'
          intro _
          simp
        · intro hcontra
          rcases hcontra with h1 | h1
          · cases h1
          · rw [Option.some_inj] at h1
            exact absurd h1 ht0

theorem session_sentinel_on_missing_host_witness :
    get_session_and_host id ⟨⟨none, none, none, none, none, none⟩,
      ⟨none, none⟩, ⟨"", none⟩⟩ = (none, none) ∧
    get_session_and_host id ⟨⟨none, none, none, none, none, none⟩,
      ⟨some "  ", none⟩, ⟨"", none⟩⟩ = (none, none) ∧
    ∃ s, get_session_and_host id ⟨⟨none, none, none, none, none, none⟩,
        ⟨some "http://x", some "tok"⟩, ⟨"", none⟩⟩ = (some s, some "http://x") ∧
      ("Authorization", "Bearer " ++ id "tok") ∈ s.headers := by
  refine ⟨?_, ?_, ?_⟩
  · exact (session_sentinel_on_missing_host id
      ⟨⟨none, none, none, none, none, none⟩, ⟨none, none⟩, ⟨"", none⟩⟩).1
      (by decide)
  · exact (session_sentinel_on_missing_host id
      ⟨⟨none, none, none, none, none, none⟩, ⟨some "  ", none⟩, ⟨"", none⟩⟩).2.1
      "  " (by decide) (by decide)
  · obtain ⟨s, hs, -, -, hauth, -⟩ := (session_sentinel_on_missing_host id
      ⟨⟨none, none, none, none, none, none⟩, ⟨some "http://x", some "tok"⟩,
        ⟨"", none⟩⟩).2.2 "http://x" (by decide) (by decide)
    exact ⟨s, hs, hauth "tok" (by decide) (by decide)⟩

/-- C5: for a call naming one synchronous aspect and one registered
timeseries aspect, both appear in the returned mapping keyed by aspect
name when the timeseries fetch succeeds with a value; when the timeseries
fetch raises, the call still returns normally with the synchronous aspect
present and the timeseries aspect silently absent. -/
theorem aspect_merge_best_effort
    (tsMap aspMap : String → Bool)
    (jsonLoads postJsonTransform : String → String)
    (fromObj : String → String → Option String)
    (entityFetch : List String → List (String × RawAspect))
    (tsFetch : String → Except Unit TimeseriesResponse)
    (syncA tsA : String) (ra : RawAspect)
    (hsync : tsMap syncA = false) (hts : tsMap tsA = true)
    (hcls : aspMap tsA = true) (hne : syncA ≠ tsA)
    (hfetch : entityFetch [syncA] = [(syncA, ra)]) :
    (∀ v rest, tsFetch tsA = .ok ⟨v :: rest⟩ →
      get_aspects_for_entity tsMap aspMap jsonLoads postJsonTransform fromObj
          entityFetch tsFetch [syncA, tsA] false =
        [(syncA, ra.value), (tsA, jsonLoads v.value)]) ∧
    (∀ err, tsFetch tsA = .error err →
      get_aspects_for_entity tsMap aspMap jsonLoads postJsonTransform fromObj
          entityFetch tsFetch [syncA, tsA] false = [(syncA, ra.value)]) := by
  have hbeq : (syncA == tsA) = false := beq_eq_false_iff_ne.mpr hne
  have hbeq2 : (tsA == syncA) = false := beq_eq_false_iff_ne.mpr (Ne.symm hne)
  constructor
  · intro v rest hok
    simp [get_aspects_for_entity, get_latest_timeseries_aspect_values,
      dictInsert, List.filter_cons, hsync, hts, hcls, hfetch, hok, hbeq, hbeq2,
      List.contains, List.elem]
  · intro err herr
    simp [get_aspects_for_entity, get_latest_timeseries_aspect_values,
      dictInsert, List.filter_cons, hsync, hts, hcls, hfetch, herr, hbeq, hbeq2,
      List.contains, List.elem]

theorem aspect_merge_best_effort_witness :
    get_aspects_for_entity (fun a => a == "datasetProfile")
        (fun a => a == "datasetProfile") id id (fun _ _ => none)
        (fun _ => [("status", ⟨"sv"⟩)]) (fun _ => .ok ⟨[⟨"tv"⟩]⟩)
        ["status", "datasetProfile"] false =
      [("status", "sv"), ("datasetProfile", "tv")] ∧
    get_aspects_for_entity (fun a => a == "datasetProfile")
        (fun a => a == "datasetProfile") id id (fun _ _ => none)
        (fun _ => [("status", ⟨"sv"⟩)]) (fun _ => .error ())
        ["status", "datasetProfile"] false =
      [("status", "sv")] := by
  constructor
  · exact (aspect_merge_best_effort (fun a => a == "datasetProfile")
      (fun a => a == "datasetProfile") id id (fun _ _ => none)
      (fun _ => [("status", ⟨"sv"⟩)]) (fun _ => .ok ⟨[⟨"tv"⟩]⟩)
      "status" "datasetProfile" ⟨"sv"⟩ (by decide) (by decide) (by decide)
      (by decide) rfl).1 ⟨"tv"⟩ [] rfl
  · exact (aspect_merge_best_effort (fun a => a == "datasetProfile")
      (fun a => a == "datasetProfile") id id (fun _ _ => none)
      (fun _ => [("status", ⟨"sv"⟩)]) (fun _ => .error ())
      "status" "datasetProfile" ⟨"sv"⟩ (by decide) (by decide) (by decide)
      (by decide) rfl).2 () rfl

end DatahubCli
